import Mathlib

/-!
Verification of the myflix-backend watched-progress and favorites logic.

The definitions below are a shallow embedding of the Express request
handlers in server.js (the most evolved variant, the one with full-object
override support for watched_episodes / last_watched_episode, the
rolledBack flag, and the movieStatusToSave fallback).

Modelling conventions:
- JSON objects used as maps (watched_episodes, episodes_in_season) become
  association lists with JS object semantics: assignment updates an
  existing key in place or appends a fresh one, delete removes the key.
- A JS value that may be absent becomes an Option; a request field that
  may be present-with-null becomes Option (Option _), the outer layer
  standing for hasOwnProperty / undefined checks.
- parseInt on a request value becomes Option Int: none stands for NaN.
- Dates (new Date(), toISOString()) become an abstract Nat clock value
  passed into each handler as the parameter now.
- The database is keyed by imdb_id; each handler sees the row stored
  under the id of the request, so the store is an Option ProgressRow
  (favorites, whose uniqueness claim is about table shape, keep a list).
-/

namespace MyFlix

/-- JS object assignment on an association list: overwrite the value of an
existing key in place, otherwise append the new binding at the end. -/
def setKey {α : Type} : List (String × α) → String → α → List (String × α)
  | [], k, v => [(k, v)]
  | p :: rest, k, v => if p.1 = k then (k, v) :: rest else p :: setKey rest k v

/-- JS delete on an association list: remove the binding of the key. -/
def eraseKey {α : Type} : List (String × α) → String → List (String × α)
  | [], _ => []
  | p :: rest, k => if p.1 = k then rest else p :: eraseKey rest k

/-- Key lookup on an association list. -/
def lookupKey {α : Type} : List (String × α) → String → Option α
  | [], _ => none
  | p :: rest, k => if p.1 = k then some p.2 else lookupKey rest k

/-- JS truthiness of an optional string: undefined, null and the empty
string are falsy. -/
def truthy : Option String → Bool
  | none => false
  | some s => s != ""

/-- The last_watched_episode JSON value: season, episode and the
timestamp written by new Date().toISOString(). -/
structure LastWatched where
  season : Nat
  episode : Nat
  timestamp : Nat
deriving DecidableEq, Repr

/-- The singular watched_episode toggle carried by a TV request. -/
structure EpisodeToggle where
  season : Nat
  episode : Nat
  watched : Bool
deriving DecidableEq, Repr

/-- One row of the watched_progress table. -/
structure ProgressRow where
  imdb_id : String
  media_type : String
  title : String
  poster_url : Option String
  status : Option String
  watched_episodes : List (String × Bool)
  total_seasons : Option Int
  episodes_in_season : List (String × Int)
  last_watched_episode : Option LastWatched
  last_interaction_date : Nat
deriving DecidableEq, Repr

/-- The body of a TV POST /api/watched request, after the basic
validation that imdb_id, media_type and title are present.
total_seasons: outer Option is the !== undefined check, inner Option is
the result of parseInt (none for NaN). episodes_in_season pairs carry
Option Int values, none standing for a count that does not parse.
watched_episodes and last_watched_episode are the full-object overrides:
the outer Option is hasOwnProperty, the inner Option is a null value. -/
structure TvRequest where
  imdb_id : String
  title : String
  poster_url : Option String
  status : Option String
  watched_episode : Option EpisodeToggle
  total_seasons : Option (Option Int)
  episodes_in_season : Option (List (String × Option Int))
  watched_episodes : Option (Option (List (String × Bool)))
  last_watched_episode : Option (Option LastWatched)
deriving DecidableEq, Repr

/-- The fixed status enumeration validTvStatusesFromDB from the source. -/
def validTvStatusesFromDB : List String :=
  ["watching", "completed", "on_hold", "dropped", "plan_to_watch"]

/-- The episode key, source: S dollar-season E dollar-episode template. -/
def epKey (season episode : Nat) : String :=
  "S" ++ toString season ++ "E" ++ toString episode

/-- finalTitle: title or existing.title (title is validated non-empty,
but the fallback is kept as in the source). -/
def baseTitle (existing : Option ProgressRow) (req : TvRequest) : String :=
  match existing with
  | some e => if req.title != "" then req.title else e.title
  | none => req.title

/-- finalPosterUrl: poster_url or existing.poster_url. -/
def basePoster (existing : Option ProgressRow) (req : TvRequest) : Option String :=
  match existing with
  | some e => if truthy req.poster_url then req.poster_url else e.poster_url
  | none => req.poster_url

/-- finalTotalSeasons: parseInt of the request value when defined and
numeric, then the existing value when the result is still null. -/
def baseTotalSeasons (existing : Option ProgressRow) (req : TvRequest) : Option Int :=
  let fromReq : Option Int :=
    match req.total_seasons with
    | some (some n) => some n
    | some none => none
    | none => none
  match fromReq with
  | some n => some n
  | none =>
    match existing with
    | some e => e.total_seasons
    | none => none

/-- finalWatchedEpisodes before the toggle: the existing map (empty when
no row), replaced wholesale when the request body has the plural
watched_episodes key (a null value collapses to the empty map). -/
def baseWatchedEpisodes (existing : Option ProgressRow) (req : TvRequest) :
    List (String × Bool) :=
  match req.watched_episodes with
  | some o => o.getD []
  | none =>
    match existing with
    | some e => e.watched_episodes
    | none => []

/-- finalEpisodesInSeason before the merge: the existing map or empty. -/
def baseEpisodesInSeason (existing : Option ProgressRow) (req : TvRequest) :
    List (String × Int) :=
  match req.episodes_in_season, existing with
  | _, some e => e.episodes_in_season
  | _, none => []

/-- finalLastWatchedEpisode before the toggle: the existing value
(null when no row), replaced wholesale when the request body has the
last_watched_episode key (the value may be an explicit null). -/
def baseLastWatched (existing : Option ProgressRow) (req : TvRequest) :
    Option LastWatched :=
  match req.last_watched_episode with
  | some o => o
  | none =>
    match existing with
    | some e => e.last_watched_episode
    | none => none

/-- determinedStatus: the request status, then the existing status when
the request one is falsy and a row exists. -/
def determinedStatus (existing : Option ProgressRow) (req : TvRequest) :
    Option String :=
  match existing with
  | some e => if truthy req.status then req.status else e.status
  | none => req.status

/-- finalTvStatusToSave: keep determinedStatus when truthy and in the
enumeration, otherwise default to watching (the first-element fallback of
the source is dead for the fixed non-empty list, headD keeps it total). -/
def resolveTvStatus (d : Option String) : String :=
  if truthy d ∧ d.getD "" ∈ validTvStatusesFromDB then d.getD ""
  else if "watching" ∈ validTvStatusesFromDB then "watching"
  else validTvStatusesFromDB.headD "watching"

/-- The effect of the singular toggle on the episode map: set the key to
true, or delete it. -/
def applyToggleMap (t : EpisodeToggle) (m : List (String × Bool)) :
    List (String × Bool) :=
  if t.watched then setKey m (epKey t.season t.episode) true
  else eraseKey m (epKey t.season t.episode)

/-- The effect of the singular toggle on last_watched_episode: a watch
sets it to the toggled episode with the current time; an unwatch clears
it exactly when it points at the same season and episode. -/
def applyToggleLwe (t : EpisodeToggle) (lwe : Option LastWatched) (now : Nat) :
    Option LastWatched :=
  if t.watched then some ⟨t.season, t.episode, now⟩
  else
    match lwe with
    | some l => if l.season = t.season ∧ l.episode = t.episode then none else some l
    | none => none

/-- The episode map to be written: the base map with the toggle applied
when one is present. -/
def finalWatchedEpisodes (existing : Option ProgressRow) (req : TvRequest) :
    List (String × Bool) :=
  match req.watched_episode with
  | some t => applyToggleMap t (baseWatchedEpisodes existing req)
  | none => baseWatchedEpisodes existing req

/-- The last_watched_episode to be written. -/
def finalLastWatched (existing : Option ProgressRow) (req : TvRequest) (now : Nat) :
    Option LastWatched :=
  match req.watched_episode with
  | some t => applyToggleLwe t (baseLastWatched existing req) now
  | none => baseLastWatched existing req

/-- The episodes_in_season merge loop: each pair whose count parsed
overwrites its key, pairs with a NaN count are skipped with a warning. -/
def mergeEIS : List (String × Int) → List (String × Option Int) → List (String × Int)
  | m, [] => m
  | m, p :: rest =>
    match p.2 with
    | some c => mergeEIS (setKey m p.1 c) rest
    | none => mergeEIS m rest

/-- The episodes_in_season map to be written. -/
def finalEpisodesInSeason (existing : Option ProgressRow) (req : TvRequest) :
    List (String × Int) :=
  match req.episodes_in_season with
  | some l => mergeEIS (baseEpisodesInSeason existing req) l
  | none => baseEpisodesInSeason existing req

/-- The TV path of POST /api/watched inside its transaction: read the
existing row, resolve every field, then UPDATE in place or INSERT. -/
def tvUpsert (existing : Option ProgressRow) (req : TvRequest) (now : Nat) :
    ProgressRow :=
  match existing with
  | some e =>
    { e with
      title := baseTitle (some e) req
      poster_url := basePoster (some e) req
      watched_episodes := finalWatchedEpisodes (some e) req
      total_seasons := baseTotalSeasons (some e) req
      episodes_in_season := finalEpisodesInSeason (some e) req
      last_watched_episode := finalLastWatched (some e) req now
      last_interaction_date := now
      status := some (resolveTvStatus (determinedStatus (some e) req)) }
  | none =>
    { imdb_id := req.imdb_id
      media_type := "tv"
      title := baseTitle none req
      poster_url := basePoster none req
      status := some (resolveTvStatus (determinedStatus none req))
      watched_episodes := finalWatchedEpisodes none req
      total_seasons := baseTotalSeasons none req
      episodes_in_season := finalEpisodesInSeason none req
      last_watched_episode := finalLastWatched none req now
      last_interaction_date := now }

/-- The body of a movie POST /api/watched request after basic validation. -/
structure MovieRequest where
  imdb_id : String
  title : String
  poster_url : Option String
  status : Option String
deriving DecidableEq, Repr

/-- The observable outcome of the movie path: the DELETE branch with a
row found (200 with the row), the DELETE branch with nothing tracked
(204), or the upsert branch (200 with the row). -/
inductive MovieOutcome where
  | deletedRow (row : ProgressRow)
  | notTracked
  | savedRow (row : ProgressRow)
deriving DecidableEq, Repr

/-- The INSERT ... ON CONFLICT (imdb_id) DO UPDATE of the movie path:
only title, poster_url, status and last_interaction_date are written on
conflict; movieStatusToSave is status or the watched default. -/
def movieWatchedUpsert (existing : Option ProgressRow) (req : MovieRequest)
    (now : Nat) : ProgressRow :=
  let st : String := if truthy req.status then req.status.getD "" else "watched"
  match existing with
  | some e =>
    { e with
      title := req.title
      poster_url := req.poster_url
      status := some st
      last_interaction_date := now }
  | none =>
    { imdb_id := req.imdb_id
      media_type := "movie"
      title := req.title
      poster_url := req.poster_url
      status := some st
      watched_episodes := []
      total_seasons := none
      episodes_in_season := []
      last_watched_episode := none
      last_interaction_date := now }

/-- The movie path of POST /api/watched: status unwatched runs
DELETE ... WHERE imdb_id AND media_type movie, anything else runs the
upsert. Returns the stored row after the operation and the outcome. -/
def postMovie (existing : Option ProgressRow) (req : MovieRequest) (now : Nat) :
    Option ProgressRow × MovieOutcome :=
  if req.status = some "unwatched" then
    match existing with
    | some e =>
      if e.media_type = "movie" then (none, MovieOutcome.deletedRow e)
      else (some e, MovieOutcome.notTracked)
    | none => (none, MovieOutcome.notTracked)
  else
    let row := movieWatchedUpsert existing req now
    (some row, MovieOutcome.savedRow row)

/-- One row of the favorites table. -/
structure Favorite where
  imdb_id : String
  title : String
  poster_url : Option String
  media_type : String
  added_date : Nat
deriving DecidableEq, Repr

/-- The body of POST /api/favorites after basic validation. -/
structure FavRequest where
  imdb_id : String
  title : String
  poster_url : Option String
  media_type : String
deriving DecidableEq, Repr

/-- The observable outcome of POST /api/favorites: 201 with the new row,
200 with the existing row, or the 409 branch. -/
inductive FavOutcome where
  | created (row : Favorite)
  | alreadyExists (row : Favorite)
  | conflictUnresolved
deriving DecidableEq, Repr

/-- POST /api/favorites: INSERT ... ON CONFLICT (imdb_id) DO NOTHING
RETURNING *; when no row comes back, SELECT the existing row and answer
200, or 409 when even the SELECT finds nothing. -/
def postFavorite (table : List Favorite) (req : FavRequest) (now : Nat) :
    List Favorite × FavOutcome :=
  match table.find? (fun f => f.imdb_id == req.imdb_id) with
  | some _ =>
    match table.find? (fun f => f.imdb_id == req.imdb_id) with
    | some e => (table, FavOutcome.alreadyExists e)
    | none => (table, FavOutcome.conflictUnresolved)
  | none =>
    (table ++ [⟨req.imdb_id, req.title, req.poster_url, req.media_type, now⟩],
     FavOutcome.created ⟨req.imdb_id, req.title, req.poster_url, req.media_type, now⟩)

/-- The number of favorites rows stored under an id. -/
def favKeyCount (table : List Favorite) (id : String) : Nat :=
  table.countP (fun f => f.imdb_id == id)

/-- The SQL statements the TV path issues against its connection. -/
inductive DbOp where
  | beginTx
  | selectRow
  | writeRow (row : ProgressRow)
  | commitTx
  | rollbackTx
deriving DecidableEq, Repr

/-- A connection to the store, restricted to the one row keyed by the
imdb_id of the request: the committed row, and the pending view of an
open transaction (none when no transaction is open). -/
structure Conn where
  committed : Option ProgressRow
  tx : Option (Option ProgressRow)
deriving DecidableEq, Repr

/-- Transactional semantics of the statements: writes inside an open
transaction touch only the pending view, COMMIT publishes it, ROLLBACK
discards it. -/
def execOp (c : Conn) : DbOp → Conn
  | DbOp.beginTx => { c with tx := some c.committed }
  | DbOp.selectRow => c
  | DbOp.writeRow r =>
    match c.tx with
    | some _ => { c with tx := some (some r) }
    | none => { c with committed := some r }
  | DbOp.commitTx =>
    match c.tx with
    | some p => { committed := p, tx := none }
    | none => c
  | DbOp.rollbackTx => { c with tx := none }

/-- What a SELECT on the connection returns. -/
def connView (c : Conn) : Option ProgressRow :=
  match c.tx with
  | some p => p
  | none => c.committed

/-- The HTTP outcome of the TV path: 200 with the row, or the 500
Failed to save watched progress response of the catch block. -/
inductive TvResponse where
  | ok (row : ProgressRow)
  | serverErr
deriving DecidableEq, Repr

/-- The observable run of one TV POST: the final connection, the trace
of statements actually issued, and the response. -/
structure TvRun where
  conn : Conn
  ops : List DbOp
  response : TvResponse
deriving DecidableEq, Repr

/-- The catch block of the handler for media_type tv: the rolledBack
flag is still unset when the catch is entered, so exactly one ROLLBACK
is issued, then the 500 response is sent. -/
def tvCatch (c : Conn) (ops : List DbOp) : TvRun :=
  { conn := execOp c DbOp.rollbackTx
    ops := ops ++ [DbOp.rollbackTx]
    response := TvResponse.serverErr }

/-- One run of the TV path of POST /api/watched over the connection.
The oracle fails says which of the successively issued statements
(0 BEGIN, 1 SELECT, 2 UPDATE or INSERT, 3 COMMIT) throws; the first
failing statement transfers control to the catch block. -/
def tvPostRun (fails : Nat → Bool) (c0 : Conn) (req : TvRequest) (now : Nat) :
    TvRun :=
  if fails 0 then tvCatch c0 [] else
  let c1 := execOp c0 DbOp.beginTx
  if fails 1 then tvCatch c1 [DbOp.beginTx] else
  let row := tvUpsert (connView c1) req now
  if fails 2 then tvCatch c1 [DbOp.beginTx, DbOp.selectRow] else
  let c2 := execOp c1 (DbOp.writeRow row)
  if fails 3 then tvCatch c2 [DbOp.beginTx, DbOp.selectRow, DbOp.writeRow row] else
  { conn := execOp c2 DbOp.commitTx
    ops := [DbOp.beginTx, DbOp.selectRow, DbOp.writeRow row, DbOp.commitTx]
    response := TvResponse.ok row }

/-- Whether a statement is a ROLLBACK. -/
def isRollback : DbOp → Bool
  | DbOp.beginTx => false
  | DbOp.selectRow => false
  | DbOp.writeRow _ => false
  | DbOp.commitTx => false
  | DbOp.rollbackTx => true

/-- The number of ROLLBACK statements in a trace. -/
def rollbackCount (ops : List DbOp) : Nat :=
  ops.countP isRollback

/-- Spec-side definition for the refinement claim C1, following the
wording of the spec: a reset request yields an empty map and null
last-watched, and a toggle in the same request applies after that reset
(reset-then-toggle ordering). Compared against tvUpsert. -/
def specResetThenToggle (t : Option EpisodeToggle) (now : Nat) :
    List (String × Bool) × Option LastWatched :=
  match t with
  | none => ([], none)
  | some tg =>
    if tg.watched then
      ([(epKey tg.season tg.episode, true)], some ⟨tg.season, tg.episode, now⟩)
    else ([], none)

/-- A sample pre-existing TV row used by the concrete witnesses. -/
def rowA : ProgressRow :=
  { imdb_id := "tt0903747"
    media_type := "tv"
    title := "Breaking Bad"
    poster_url := some "poster.jpg"
    status := some "completed"
    watched_episodes := [("S1E1", true), ("S1E2", true)]
    total_seasons := some 5
    episodes_in_season := [("1", 7)]
    last_watched_episode := some ⟨1, 2, 10⟩
    last_interaction_date := 10 }

/-- A TV request with only required fields, used as a base for samples. -/
def tvReqBase : TvRequest :=
  { imdb_id := "tt0903747"
    title := "Breaking Bad"
    poster_url := none
    status := none
    watched_episode := none
    total_seasons := none
    episodes_in_season := none
    watched_episodes := none
    last_watched_episode := none }

/-- Sample reset request for C1: full-object overrides plus a toggle. -/
def reqC1 : TvRequest :=
  { tvReqBase with
    watched_episode := some ⟨2, 3, true⟩
    watched_episodes := some (some [])
    last_watched_episode := some none }

/-- Sample unwatch toggle request for C2. -/
def reqC2 : TvRequest :=
  { tvReqBase with watched_episode := some ⟨1, 2, false⟩ }

/-- Sample request with a present but invalid status, for C3. -/
def reqC3 : TvRequest :=
  { tvReqBase with status := some "banana" }

/-- Sample request with a present valid status, for the C3 witness. -/
def reqC3b : TvRequest :=
  { tvReqBase with status := some "on_hold" }

/-- Sample episodes_in_season list for C4: one valid overwrite, one NaN
count, one new season. -/
def eisListC4 : List (String × Option Int) :=
  [("1", some 8), ("2", none), ("3", some 10)]

/-- Sample request carrying episodes_in_season, for C4. -/
def reqC4 : TvRequest :=
  { tvReqBase with episodes_in_season := some eisListC4 }

/-- Sample watch toggle request for C7. -/
def reqC7 : TvRequest :=
  { tvReqBase with watched_episode := some ⟨1, 3, true⟩ }

/-- Sample movie request without a status, for C5. -/
def mreqC5 : MovieRequest :=
  { imdb_id := "tt1375666", title := "Inception", poster_url := some "i.jpg",
    status := none }

/-- A sample pre-existing movie row used by the concrete witnesses. -/
def rowM : ProgressRow :=
  { imdb_id := "tt1375666"
    media_type := "movie"
    title := "Inception"
    poster_url := some "i.jpg"
    status := some "watched"
    watched_episodes := []
    total_seasons := none
    episodes_in_season := []
    last_watched_episode := none
    last_interaction_date := 3 }

/-- Sample movie request with status unwatched, for C6. -/
def mreqC6 : MovieRequest :=
  { imdb_id := "tt1375666", title := "Inception", poster_url := none,
    status := some "unwatched" }

/-- Sample movie request aimed at an id holding a TV row, for C10. -/
def mreqC10 : MovieRequest :=
  { imdb_id := "tt0903747", title := "Breaking Bad", poster_url := none,
    status := none }

/-- Sample favorites row and table for C8. -/
def favA : Favorite :=
  { imdb_id := "tt0903747", title := "Breaking Bad", poster_url := none,
    media_type := "tv", added_date := 1 }

/-- Sample duplicate favorites request for C8. -/
def freqA : FavRequest :=
  { imdb_id := "tt0903747", title := "Breaking Bad", poster_url := none,
    media_type := "tv" }

/-- Sample failure oracle for C9: the UPDATE or INSERT statement throws. -/
def failsAtWrite : Nat → Bool := fun n => n == 2

/-- Sample starting connection for C9: a committed row, no open
transaction. -/
def connA : Conn := { committed := some rowA, tx := none }

/-! Helper lemmas about the association-list operations. -/

theorem lookupKey_setKey_self {α : Type} (m : List (String × α)) (k : String) (v : α) :
    lookupKey (setKey m k v) k = some v := by
  induction m with
  | nil => simp [setKey, lookupKey]
  | cons p rest ih =>
    by_cases h : p.1 = k
    · simp [setKey, h, lookupKey]
    · simp [setKey, h, lookupKey, ih]

theorem lookupKey_setKey_ne {α : Type} (m : List (String × α)) (k1 : String) (v : α)
    (k2 : String) (h : k1 ≠ k2) :
    lookupKey (setKey m k1 v) k2 = lookupKey m k2 := by
  induction m with
  | nil => simp [setKey, lookupKey, h]
  | cons p rest ih =>
    by_cases hp : p.1 = k1
    · simp [setKey, hp, lookupKey, h]
    · by_cases hq : p.1 = k2
      · simp [setKey, hp, lookupKey, hq, h.symm]
      · simp [setKey, hp, lookupKey, hq, ih]

theorem eraseKey_of_lookup_none {α : Type} (m : List (String × α)) (k : String)
    (h : lookupKey m k = none) : eraseKey m k = m := by
  induction m with
  | nil => rfl
  | cons p rest ih =>
    by_cases hp : p.1 = k
    · simp [lookupKey, hp] at h
    · simp [lookupKey, hp] at h
      simp [eraseKey, hp, ih h]

theorem setKey_setKey_self {α : Type} (m : List (String × α)) (k : String) (v : α) :
    setKey (setKey m k v) k v = setKey m k v := by
  induction m with
  | nil => simp [setKey]
  | cons p rest ih =>
    by_cases hp : p.1 = k
    · simp [setKey, hp]
    · simp [setKey, hp, ih]

theorem lookupKey_mergeEIS_not_mem :
    ∀ (l : List (String × Option Int)) (m : List (String × Int)) (k : String),
      (∀ p ∈ l, p.1 ≠ k) → lookupKey (mergeEIS m l) k = lookupKey m k := by
  intro l
  induction l with
  | nil => intro m k _; rfl
  | cons p rest ih =>
    intro m k h
    have hp : p.1 ≠ k := h p (List.mem_cons_self p rest)
    have hr : ∀ q ∈ rest, q.1 ≠ k := fun q hq => h q (List.mem_cons_of_mem p hq)
    cases hc : p.2 with
    | none => simp only [mergeEIS, hc]; exact ih m k hr
    | some c =>
      simp only [mergeEIS, hc]
      rw [ih _ k hr, lookupKey_setKey_ne _ _ _ _ hp]

theorem lookupKey_mergeEIS_mem_some :
    ∀ (l : List (String × Option Int)) (m : List (String × Int)) (k : String) (v : Int),
      (l.map Prod.fst).Nodup → (k, some v) ∈ l →
      lookupKey (mergeEIS m l) k = some v := by
  intro l
  induction l with
  | nil => intro m k v _ hmem; cases hmem
  | cons p rest ih =>
    intro m k v hnd hmem
    rw [List.map_cons, List.nodup_cons] at hnd
    rcases List.mem_cons.mp hmem with heq | hmem2
    · have hk : p.1 = k := by rw [← heq]
      have hv : p.2 = some v := by rw [← heq]
      have hknr : ∀ q ∈ rest, q.1 ≠ k := by
        intro q hq hqk
        exact hnd.1 (by rw [hk, ← hqk]; exact List.mem_map_of_mem Prod.fst hq)
      simp only [mergeEIS, hv]
      rw [lookupKey_mergeEIS_not_mem rest _ k hknr, hk, lookupKey_setKey_self]
    · cases hc : p.2 with
      | none => simp only [mergeEIS, hc]; exact ih m k v hnd.2 hmem2
      | some c => simp only [mergeEIS, hc]; exact ih _ k v hnd.2 hmem2

theorem lookupKey_mergeEIS_mem_none :
    ∀ (l : List (String × Option Int)) (m : List (String × Int)) (k : String),
      (l.map Prod.fst).Nodup → (k, none) ∈ l →
      lookupKey (mergeEIS m l) k = lookupKey m k := by
  intro l
  induction l with
  | nil => intro m k _ hmem; cases hmem
  | cons p rest ih =>
    intro m k hnd hmem
    rw [List.map_cons, List.nodup_cons] at hnd
    rcases List.mem_cons.mp hmem with heq | hmem2
    · have hk : p.1 = k := by rw [← heq]
      have hv : p.2 = none := by rw [← heq]
      have hknr : ∀ q ∈ rest, q.1 ≠ k := by
        intro q hq hqk
        exact hnd.1 (by rw [hk, ← hqk]; exact List.mem_map_of_mem Prod.fst hq)
      simp only [mergeEIS, hv]
      exact lookupKey_mergeEIS_not_mem rest m k hknr
    · have hkin : k ∈ rest.map Prod.fst := by
        exact List.mem_map_of_mem Prod.fst hmem2
      have hpk : p.1 ≠ k := fun hpk => hnd.1 (hpk ▸ hkin)
      cases hc : p.2 with
      | none => simp only [mergeEIS, hc]; exact ih m k hnd.2 hmem2
      | some c =>
        simp only [mergeEIS, hc]
        rw [ih _ k hnd.2 hmem2, lookupKey_setKey_ne _ _ _ _ hpk]

/-! Projection lemmas for tvUpsert, shared by the claims. -/

theorem tvUpsert_watched_episodes (existing : Option ProgressRow) (req : TvRequest)
    (now : Nat) :
    (tvUpsert existing req now).watched_episodes = finalWatchedEpisodes existing req := by
  cases existing <;> rfl

theorem tvUpsert_last_watched (existing : Option ProgressRow) (req : TvRequest)
    (now : Nat) :
    (tvUpsert existing req now).last_watched_episode =
      finalLastWatched existing req now := by
  cases existing <;> rfl

theorem tvUpsert_status (existing : Option ProgressRow) (req : TvRequest)
    (now : Nat) :
    (tvUpsert existing req now).status =
      some (resolveTvStatus (determinedStatus existing req)) := by
  cases existing <;> rfl

theorem tvUpsert_episodes_in_season (existing : Option ProgressRow) (req : TvRequest)
    (now : Nat) :
    (tvUpsert existing req now).episodes_in_season =
      finalEpisodesInSeason existing req := by
  cases existing <;> rfl

/-- Claim C1: a TV POST carrying the full-object overrides
watched_episodes equal to the empty object and last_watched_episode equal
to null persists, for the episode map and last-watched pointer, exactly
the reset-then-toggle result: with a toggle present, the toggle applied
to the reset state; without one, the empty map and null, regardless of
the prior row. -/
theorem c1_reset_then_toggle (existing : Option ProgressRow) (req : TvRequest)
    (now : Nat)
    (hwe : req.watched_episodes = some (some []))
    (hlwe : req.last_watched_episode = some none) :
    ((tvUpsert existing req now).watched_episodes,
      (tvUpsert existing req now).last_watched_episode) =
      specResetThenToggle req.watched_episode now := by
  rw [tvUpsert_watched_episodes, tvUpsert_last_watched]
  have hbwe : baseWatchedEpisodes existing req = [] := by
    simp [baseWatchedEpisodes, hwe]
  have hblwe : baseLastWatched existing req = none := by
    simp [baseLastWatched, hlwe]
  cases ht : req.watched_episode with
  | none =>
    simp [finalWatchedEpisodes, finalLastWatched, ht, hbwe, hblwe, specResetThenToggle]
  | some t =>
    by_cases hw : t.watched
    · simp [finalWatchedEpisodes, finalLastWatched, ht, hbwe, hblwe,
        specResetThenToggle, applyToggleMap, applyToggleLwe, hw, setKey]
    · simp [finalWatchedEpisodes, finalLastWatched, ht, hbwe, hblwe,
        specResetThenToggle, applyToggleMap, applyToggleLwe, hw, eraseKey]

/-- Witness for C1 at a concrete prior row and reset request. -/
theorem c1_reset_then_toggle_witness :
    reqC1.watched_episodes = some (some []) ∧
    reqC1.last_watched_episode = some none ∧
    ((tvUpsert (some rowA) reqC1 7).watched_episodes,
      (tvUpsert (some rowA) reqC1 7).last_watched_episode) =
      specResetThenToggle reqC1.watched_episode 7 :=
  ⟨rfl, rfl, c1_reset_then_toggle (some rowA) reqC1 7 rfl rfl⟩

/-- Claim C2: a TV POST carrying a watched_episode toggle computes the
key S-season-E-episode; a watch sets the key to true in the persisted
map and points last_watched_episode at the toggled episode with the
current time; an unwatch removes the key (a no-op on the map when the
key is absent) and clears last_watched_episode exactly when it
referenced the same season and episode, leaving it unchanged otherwise. -/
theorem c2_episode_toggle (existing : Option ProgressRow) (req : TvRequest)
    (now : Nat) (t : EpisodeToggle) (ht : req.watched_episode = some t) :
    (t.watched = true →
        (tvUpsert existing req now).watched_episodes =
          setKey (baseWatchedEpisodes existing req) (epKey t.season t.episode) true ∧
        (tvUpsert existing req now).last_watched_episode =
          some ⟨t.season, t.episode, now⟩) ∧
    (t.watched = false →
        (tvUpsert existing req now).watched_episodes =
          eraseKey (baseWatchedEpisodes existing req) (epKey t.season t.episode) ∧
        (lookupKey (baseWatchedEpisodes existing req) (epKey t.season t.episode) = none →
          (tvUpsert existing req now).watched_episodes =
            baseWatchedEpisodes existing req) ∧
        (∀ l, baseLastWatched existing req = some l →
          (tvUpsert existing req now).last_watched_episode =
            if l.season = t.season ∧ l.episode = t.episode then none else some l) ∧
        (baseLastWatched existing req = none →
          (tvUpsert existing req now).last_watched_episode = none)) := by
  constructor
  · intro hw
    rw [tvUpsert_watched_episodes, tvUpsert_last_watched]
    simp [finalWatchedEpisodes, finalLastWatched, ht, applyToggleMap, applyToggleLwe, hw]
  · intro hw
    refine ⟨?_, ?_, ?_, ?_⟩
    · rw [tvUpsert_watched_episodes]
      simp [finalWatchedEpisodes, ht, applyToggleMap, hw]
    · intro habs
      rw [tvUpsert_watched_episodes]
      simp [finalWatchedEpisodes, ht, applyToggleMap, hw,
        eraseKey_of_lookup_none _ _ habs]
    · intro l hl
      rw [tvUpsert_last_watched]
      simp [finalLastWatched, ht, applyToggleLwe, hw, hl]
    · intro hn
      rw [tvUpsert_last_watched]
      simp [finalLastWatched, ht, applyToggleLwe, hw, hn]

/-- Witness for C2: unwatching S1E2 on a concrete row removes the key
and clears the matching last_watched_episode. -/
theorem c2_episode_toggle_witness :
    reqC2.watched_episode = some ⟨1, 2, false⟩ ∧
    (tvUpsert (some rowA) reqC2 20).watched_episodes =
      eraseKey (baseWatchedEpisodes (some rowA) reqC2) (epKey 1 2) ∧
    (tvUpsert (some rowA) reqC2 20).last_watched_episode = none := by
  refine ⟨rfl, ?_, ?_⟩
  · exact ((c2_episode_toggle (some rowA) reqC2 20 ⟨1, 2, false⟩ rfl).2 rfl).1
  · have h := ((c2_episode_toggle (some rowA) reqC2 20 ⟨1, 2, false⟩ rfl).2 rfl).2.2.1
      ⟨1, 2, 10⟩ rfl
    simpa using h

/-- Counterexample to C3 as stated: a request with the present but
invalid status banana over a row whose status completed is valid is
persisted with status watching, not with the existing valid status. -/
theorem c3_counterexample :
    rowA.status = some "completed" ∧
    "completed" ∈ validTvStatusesFromDB ∧
    reqC3.status = some "banana" ∧
    "banana" ∉ validTvStatusesFromDB ∧
    (tvUpsert (some rowA) reqC3 11).status = some "watching" ∧
    (tvUpsert (some rowA) reqC3 11).status ≠ some "completed" := by
  refine ⟨rfl, by decide, rfl, by decide, by decide, by decide⟩

/-- Claim C3 (amended): the persisted TV status is the request status
when that is truthy and in the enumeration; when the request status is
absent or falsy, the existing status when that is valid; in every other
case watching — in particular a present-but-invalid request status
forces watching even over an existing row with a valid status. -/
theorem c3_status_resolution (existing : Option ProgressRow) (req : TvRequest)
    (now : Nat) :
    (∀ s, req.status = some s → s ∈ validTvStatusesFromDB →
        (tvUpsert existing req now).status = some s) ∧
    (∀ e s, existing = some e → truthy req.status = false → e.status = some s →
        s ∈ validTvStatusesFromDB → (tvUpsert existing req now).status = some s) ∧
    (∀ s, req.status = some s → s ≠ "" → s ∉ validTvStatusesFromDB →
        (tvUpsert existing req now).status = some "watching") ∧
    (∀ e s, existing = some e → truthy req.status = false → e.status = some s →
        s ∉ validTvStatusesFromDB →
        (tvUpsert existing req now).status = some "watching") ∧
    (truthy req.status = false →
        (existing = none ∨ ∃ e, existing = some e ∧ truthy e.status = false) →
        (tvUpsert existing req now).status = some "watching") := by
  have hne : ∀ s, s ∈ validTvStatusesFromDB → s ≠ "" := by
    intro s hs
    fin_cases hs <;> decide
  refine ⟨?_, ?_, ?_, ?_, ?_⟩
  · intro s hs hmem
    have hs' : s ≠ "" := hne s hmem
    have hd : determinedStatus existing req = some s := by
      cases existing with
      | none => simp [determinedStatus, hs]
      | some e => simp [determinedStatus, hs, truthy, hs']
    rw [tvUpsert_status, hd]
    simp [resolveTvStatus, truthy, hs', hmem]
  · intro e s he hf hes hmem
    subst he
    have hs' : s ≠ "" := hne s hmem
    have hd : determinedStatus (some e) req = some s := by
      simp [determinedStatus, hf, hes]
    rw [tvUpsert_status, hd]
    simp [resolveTvStatus, truthy, hs', hmem]
  · intro s hs hsne hnm
    have hd : determinedStatus existing req = some s := by
      cases existing with
      | none => simp [determinedStatus, hs]
      | some e => simp [determinedStatus, hs, truthy, hsne]
    rw [tvUpsert_status, hd]
    unfold resolveTvStatus
    rw [if_neg (fun hcon => hnm hcon.2),
      if_pos (by decide : "watching" ∈ validTvStatusesFromDB)]
  · intro e s he hf hes hnm
    subst he
    have hd : determinedStatus (some e) req = some s := by
      simp [determinedStatus, hf, hes]
    rw [tvUpsert_status, hd]
    unfold resolveTvStatus
    rw [if_neg (fun hcon => hnm hcon.2),
      if_pos (by decide : "watching" ∈ validTvStatusesFromDB)]
  · intro hf hcase
    have hd : truthy (determinedStatus existing req) = false := by
      rcases hcase with hn | ⟨e, he, hef⟩
      · subst hn; simp [determinedStatus, hf]
      · subst he; simp [determinedStatus, hf, hef]
    rw [tvUpsert_status]
    unfold resolveTvStatus
    rw [if_neg (fun hcon => by rw [hd] at hcon; exact absurd hcon.1 (by simp)),
      if_pos (by decide : "watching" ∈ validTvStatusesFromDB)]

/-- Witness for C3 (amended): a valid request status on_hold wins over
the existing completed row. -/
theorem c3_status_resolution_witness :
    reqC3b.status = some "on_hold" ∧
    "on_hold" ∈ validTvStatusesFromDB ∧
    (tvUpsert (some rowA) reqC3b 11).status = some "on_hold" :=
  ⟨rfl, by decide,
    (c3_status_resolution (some rowA) reqC3b 11).1 "on_hold" rfl (by decide)⟩

/-- Claim C4: each season whose count parses overwrites exactly that key
of the persisted episodes_in_season map, seasons the request does not
mention keep their prior values, and pairs whose count does not parse
are skipped without being stored and without failing the request. -/
theorem c4_eis_merge (existing : Option ProgressRow) (req : TvRequest) (now : Nat)
    (l : List (String × Option Int))
    (hl : req.episodes_in_season = some l)
    (hnd : (l.map Prod.fst).Nodup) :
    (∀ k v, (k, some v) ∈ l →
        lookupKey (tvUpsert existing req now).episodes_in_season k = some v) ∧
    (∀ k, (∀ p ∈ l, p.1 ≠ k) →
        lookupKey (tvUpsert existing req now).episodes_in_season k =
          lookupKey (baseEpisodesInSeason existing req) k) ∧
    (∀ k, (k, none) ∈ l →
        lookupKey (tvUpsert existing req now).episodes_in_season k =
          lookupKey (baseEpisodesInSeason existing req) k) := by
  rw [tvUpsert_episodes_in_season]
  have hfin : finalEpisodesInSeason existing req =
      mergeEIS (baseEpisodesInSeason existing req) l := by
    simp [finalEpisodesInSeason, hl]
  rw [hfin]
  exact ⟨fun k v hm => lookupKey_mergeEIS_mem_some l _ k v hnd hm,
    fun k hnm => lookupKey_mergeEIS_not_mem l _ k hnm,
    fun k hm => lookupKey_mergeEIS_mem_none l _ k hnd hm⟩

/-- Witness for C4 at a concrete row and request: season 1 overwritten,
season 3 added, the NaN count for season 2 skipped, season 4 untouched. -/
theorem c4_eis_merge_witness :
    reqC4.episodes_in_season = some eisListC4 ∧
    (eisListC4.map Prod.fst).Nodup ∧
    lookupKey (tvUpsert (some rowA) reqC4 9).episodes_in_season "1" = some 8 ∧
    lookupKey (tvUpsert (some rowA) reqC4 9).episodes_in_season "3" = some 10 ∧
    lookupKey (tvUpsert (some rowA) reqC4 9).episodes_in_season "2" =
      lookupKey (baseEpisodesInSeason (some rowA) reqC4) "2" ∧
    lookupKey (tvUpsert (some rowA) reqC4 9).episodes_in_season "4" =
      lookupKey (baseEpisodesInSeason (some rowA) reqC4) "4" := by
  have h := c4_eis_merge (some rowA) reqC4 9 eisListC4 rfl (by decide)
  exact ⟨rfl, by decide, h.1 "1" 8 (by decide), h.1 "3" 10 (by decide),
    h.2.2 "2" (by decide), h.2.1 "4" (by decide)⟩

/-- Claim C5: a movie POST whose status is not unwatched upserts the row
keyed by imdb_id, writing the request title, poster_url, a fresh
last_interaction_date, and the explicit status when one is given or
watched when it is omitted; repeating the request leaves the row equal
apart from last_interaction_date. -/
theorem c5_movie_upsert (existing : Option ProgressRow) (req : MovieRequest)
    (now now2 : Nat) (h : req.status ≠ some "unwatched") :
    postMovie existing req now =
      (some (movieWatchedUpsert existing req now),
        MovieOutcome.savedRow (movieWatchedUpsert existing req now)) ∧
    (movieWatchedUpsert existing req now).title = req.title ∧
    (movieWatchedUpsert existing req now).poster_url = req.poster_url ∧
    (movieWatchedUpsert existing req now).last_interaction_date = now ∧
    (∀ s, req.status = some s → s ≠ "" →
        (movieWatchedUpsert existing req now).status = some s) ∧
    (req.status = none →
        (movieWatchedUpsert existing req now).status = some "watched") ∧
    postMovie (some (movieWatchedUpsert existing req now)) req now2 =
      (some { movieWatchedUpsert existing req now with last_interaction_date := now2 },
        MovieOutcome.savedRow
          { movieWatchedUpsert existing req now with last_interaction_date := now2 }) := by
  refine ⟨by simp [postMovie, h], ?_, ?_, ?_, ?_, ?_, ?_⟩
  · cases existing <;> rfl
  · cases existing <;> rfl
  · cases existing <;> rfl
  · intro s hs hsne
    cases existing <;> simp [movieWatchedUpsert, hs, truthy, hsne]
  · intro hs
    cases existing <;> simp [movieWatchedUpsert, hs, truthy]
  · simp only [postMovie, h, if_neg (fun hc => h hc)]
    cases existing <;> simp [movieWatchedUpsert]

/-- Witness for C5: a first POST without a status stores watched and a
repeat changes only last_interaction_date. -/
theorem c5_movie_upsert_witness :
    mreqC5.status ≠ some "unwatched" ∧
    postMovie none mreqC5 3 =
      (some (movieWatchedUpsert none mreqC5 3),
        MovieOutcome.savedRow (movieWatchedUpsert none mreqC5 3)) ∧
    (movieWatchedUpsert none mreqC5 3).status = some "watched" ∧
    postMovie (some (movieWatchedUpsert none mreqC5 3)) mreqC5 8 =
      (some { movieWatchedUpsert none mreqC5 3 with last_interaction_date := 8 },
        MovieOutcome.savedRow
          { movieWatchedUpsert none mreqC5 3 with last_interaction_date := 8 }) := by
  have h := c5_movie_upsert none mreqC5 3 8 (by decide)
  exact ⟨by decide, h.1, h.2.2.2.2.2.1 rfl, h.2.2.2.2.2.2⟩

/-- Claim C6: a movie POST with status unwatched deletes the movie row
for that imdb_id when one exists and answers with the deleted row, is a
non-error no-op otherwise, and in either case leaves no movie progress
row behind. -/
theorem c6_movie_unwatched (existing : Option ProgressRow) (req : MovieRequest)
    (now : Nat) (h : req.status = some "unwatched") :
    (∀ e, existing = some e → e.media_type = "movie" →
        postMovie existing req now = (none, MovieOutcome.deletedRow e)) ∧
    (existing = none →
        postMovie existing req now = (none, MovieOutcome.notTracked)) ∧
    (∀ e, existing = some e → e.media_type ≠ "movie" →
        postMovie existing req now = (some e, MovieOutcome.notTracked)) ∧
    (∀ r, (postMovie existing req now).1 = some r → r.media_type ≠ "movie") := by
  refine ⟨?_, ?_, ?_, ?_⟩
  · intro e he hm
    subst he
    simp [postMovie, h, hm]
  · intro he
    subst he
    simp [postMovie, h]
  · intro e he hm
    subst he
    simp [postMovie, h, hm]
  · intro r hr
    rcases existing with _ | e
    · simp [postMovie, h] at hr
    · by_cases hm : e.media_type = "movie"
      · simp [postMovie, h, hm] at hr
      · simp [postMovie, h, hm] at hr
        rw [← hr]
        exact hm

/-- Witness for C6: deleting a tracked movie returns the row; repeating
against the now empty store is a no-op. -/
theorem c6_movie_unwatched_witness :
    mreqC6.status = some "unwatched" ∧
    rowM.media_type = "movie" ∧
    postMovie (some rowM) mreqC6 9 = (none, MovieOutcome.deletedRow rowM) ∧
    postMovie none mreqC6 9 = (none, MovieOutcome.notTracked) :=
  ⟨rfl, rfl,
    (c6_movie_unwatched (some rowM) mreqC6 9 rfl).1 rowM rfl rfl,
    (c6_movie_unwatched none mreqC6 9 rfl).2.1 rfl⟩

/-- Counterexample to C7 as stated: toggling S1E3 watched twice, at
clock 0 and then at clock 1, ends with the same episode map but a
last_watched_episode whose timestamp is refreshed by the second toggle,
so the full last_watched_episode state differs from toggling once. -/
theorem c7_counterexample :
    (tvUpsert (some (tvUpsert none reqC7 0)) reqC7 1).watched_episodes =
      (tvUpsert none reqC7 0).watched_episodes ∧
    (tvUpsert (some (tvUpsert none reqC7 0)) reqC7 1).last_watched_episode ≠
      (tvUpsert none reqC7 0).last_watched_episode := by
  refine ⟨by decide, by decide⟩

/-- Claim C7 (amended): applying the same watched toggle twice yields
the same persisted watched_episodes map as applying it once, and a
last_watched_episode pointing at the same season and episode whose
timestamp is the clock of the second toggle; it equals the single-toggle
state exactly when both toggles see the same clock value. -/
theorem c7_toggle_twice (existing : Option ProgressRow) (req : TvRequest)
    (now1 now2 : Nat) (t : EpisodeToggle) (ht : req.watched_episode = some t)
    (hw : t.watched = true) :
    (tvUpsert (some (tvUpsert existing req now1)) req now2).watched_episodes =
      (tvUpsert existing req now1).watched_episodes ∧
    (tvUpsert existing req now1).last_watched_episode =
      some ⟨t.season, t.episode, now1⟩ ∧
    (tvUpsert (some (tvUpsert existing req now1)) req now2).last_watched_episode =
      some ⟨t.season, t.episode, now2⟩ ∧
    (now2 = now1 →
      (tvUpsert (some (tvUpsert existing req now1)) req now2).last_watched_episode =
        (tvUpsert existing req now1).last_watched_episode) := by
  refine ⟨?_, ?_, ?_, ?_⟩
  · cases ho : req.watched_episodes with
    | some o =>
      rw [tvUpsert_watched_episodes, tvUpsert_watched_episodes]
      simp [finalWatchedEpisodes, ht, baseWatchedEpisodes, ho]
    | none =>
      rw [tvUpsert_watched_episodes, tvUpsert_watched_episodes]
      simp [finalWatchedEpisodes, ht, baseWatchedEpisodes, ho,
        tvUpsert_watched_episodes, applyToggleMap, hw, setKey_setKey_self]
  · rw [tvUpsert_last_watched]
    simp [finalLastWatched, ht, applyToggleLwe, hw]
  · rw [tvUpsert_last_watched]
    simp [finalLastWatched, ht, applyToggleLwe, hw]
  · intro hnow
    rw [tvUpsert_last_watched, tvUpsert_last_watched]
    simp [finalLastWatched, ht, applyToggleLwe, hw, hnow]

/-- Witness for C7 (amended) at a concrete row and toggle. -/
theorem c7_toggle_twice_witness :
    reqC7.watched_episode = some ⟨1, 3, true⟩ ∧
    (tvUpsert (some (tvUpsert (some rowA) reqC7 21)) reqC7 22).watched_episodes =
      (tvUpsert (some rowA) reqC7 21).watched_episodes ∧
    (tvUpsert (some (tvUpsert (some rowA) reqC7 21)) reqC7 22).last_watched_episode =
      some ⟨1, 3, 22⟩ :=
  ⟨rfl,
    (c7_toggle_twice (some rowA) reqC7 21 22 ⟨1, 3, true⟩ rfl rfl).1,
    (c7_toggle_twice (some rowA) reqC7 21 22 ⟨1, 3, true⟩ rfl rfl).2.2.1⟩

/-- Claim C8: a favorites POST whose imdb_id already has a row creates
no second row, answers with the already stored row and the
already-exists signal rather than the conflict error, and leaves
exactly one row under that id. -/
theorem c8_duplicate_favorite (table : List Favorite) (req : FavRequest)
    (now : Nat) (e : Favorite)
    (hfind : table.find? (fun f => f.imdb_id == req.imdb_id) = some e)
    (huniq : favKeyCount table req.imdb_id ≤ 1) :
    postFavorite table req now = (table, FavOutcome.alreadyExists e) ∧
    (postFavorite table req now).2 ≠ FavOutcome.conflictUnresolved ∧
    favKeyCount (postFavorite table req now).1 req.imdb_id = 1 := by
  have hp : postFavorite table req now = (table, FavOutcome.alreadyExists e) := by
    simp [postFavorite, hfind]
  have hmem : e ∈ table := List.mem_of_find?_eq_some hfind
  have hpe := List.find?_some hfind
  have hpos : 0 < favKeyCount table req.imdb_id := by
    unfold favKeyCount
    exact List.countP_pos_iff.mpr ⟨e, hmem, hpe⟩
  refine ⟨hp, by simp [hp], ?_⟩
  rw [hp]
  show favKeyCount table req.imdb_id = 1
  omega

/-- Witness for C8: a duplicate POST against a one-row table. -/
theorem c8_duplicate_favorite_witness :
    List.find? (fun f => f.imdb_id == freqA.imdb_id) [favA] = some favA ∧
    favKeyCount [favA] freqA.imdb_id ≤ 1 ∧
    postFavorite [favA] freqA 5 = ([favA], FavOutcome.alreadyExists favA) ∧
    favKeyCount (postFavorite [favA] freqA 5).1 freqA.imdb_id = 1 := by
  have h := c8_duplicate_favorite [favA] freqA 5 favA (by decide) (by decide)
  exact ⟨by decide, by decide, h.1, h.2.2⟩

/-- Claim C9: when any statement of the TV read-modify-write sequence
fails, the handler issues exactly one ROLLBACK before sending the 500
response, and the committed row is exactly what it was before the
request. -/
theorem c9_tv_rollback (fails : Nat → Bool) (c0 : Conn) (req : TvRequest)
    (now : Nat) (_htx : c0.tx = none)
    (hfail : fails 0 = true ∨ fails 1 = true ∨ fails 2 = true ∨ fails 3 = true) :
    (tvPostRun fails c0 req now).response = TvResponse.serverErr ∧
    rollbackCount (tvPostRun fails c0 req now).ops = 1 ∧
    (tvPostRun fails c0 req now).conn.committed = c0.committed ∧
    (tvPostRun fails c0 req now).conn.tx = none := by
  by_cases h0 : fails 0
  · simp [tvPostRun, h0, tvCatch, execOp, rollbackCount, isRollback, List.countP_cons]
  · by_cases h1 : fails 1
    · simp [tvPostRun, h0, h1, tvCatch, execOp, rollbackCount, isRollback,
        List.countP_cons]
    · by_cases h2 : fails 2
      · simp [tvPostRun, h0, h1, h2, tvCatch, execOp, rollbackCount, isRollback,
          List.countP_cons]
      · by_cases h3 : fails 3
        · simp [tvPostRun, h0, h1, h2, h3, tvCatch, execOp, rollbackCount,
            isRollback, List.countP_cons]
        · simp [h0, h1, h2, h3] at hfail

/-- Witness for C9: the UPDATE or INSERT statement throws against a
connection holding a committed row; the row survives untouched. -/
theorem c9_tv_rollback_witness :
    connA.tx = none ∧
    failsAtWrite 2 = true ∧
    (tvPostRun failsAtWrite connA tvReqBase 30).response = TvResponse.serverErr ∧
    rollbackCount (tvPostRun failsAtWrite connA tvReqBase 30).ops = 1 ∧
    (tvPostRun failsAtWrite connA tvReqBase 30).conn.committed = some rowA := by
  have h := c9_tv_rollback failsAtWrite connA tvReqBase 30 rfl
    (Or.inr (Or.inr (Or.inl rfl)))
  exact ⟨rfl, rfl, h.1, h.2.1, h.2.2.1⟩

/-- Claim C10: the movie upsert conflicts on imdb_id alone and updates
only title, poster_url, status and last_interaction_date, so against an
existing TV row it keeps media_type, watched_episodes,
episodes_in_season, total_seasons and last_watched_episode, while a
status-less request rewrites the status to watched, a value outside the
TV enumeration. -/
theorem c10_movie_frame (e : ProgressRow) (req : MovieRequest) (now : Nat)
    (h : req.status ≠ some "unwatched") :
    postMovie (some e) req now =
      (some (movieWatchedUpsert (some e) req now),
        MovieOutcome.savedRow (movieWatchedUpsert (some e) req now)) ∧
    (movieWatchedUpsert (some e) req now).imdb_id = e.imdb_id ∧
    (movieWatchedUpsert (some e) req now).media_type = e.media_type ∧
    (movieWatchedUpsert (some e) req now).watched_episodes = e.watched_episodes ∧
    (movieWatchedUpsert (some e) req now).episodes_in_season = e.episodes_in_season ∧
    (movieWatchedUpsert (some e) req now).total_seasons = e.total_seasons ∧
    (movieWatchedUpsert (some e) req now).last_watched_episode =
      e.last_watched_episode ∧
    (req.status = none →
        (movieWatchedUpsert (some e) req now).status = some "watched") ∧
    "watched" ∉ validTvStatusesFromDB := by
  refine ⟨by simp [postMovie, h], rfl, rfl, rfl, rfl, rfl, rfl, ?_, by decide⟩
  intro hs
  simp [movieWatchedUpsert, hs, truthy]

/-- Witness for C10: a movie POST against the id of the TV row keeps the
row a TV row with its episode state but status watched. -/
theorem c10_movie_frame_witness :
    mreqC10.status ≠ some "unwatched" ∧
    rowA.media_type = "tv" ∧
    (movieWatchedUpsert (some rowA) mreqC10 33).media_type = "tv" ∧
    (movieWatchedUpsert (some rowA) mreqC10 33).status = some "watched" ∧
    (movieWatchedUpsert (some rowA) mreqC10 33).watched_episodes =
      rowA.watched_episodes := by
  have h := c10_movie_frame rowA mreqC10 33 (by decide)
  exact ⟨by decide, rfl, h.2.2.1.trans rfl, h.2.2.2.2.2.2.2.1 rfl, h.2.2.2.1⟩

end MyFlix
